import Mathlib

/-!
# Verification of the Luxury Store API (`main.py`, `schemas.py`)

A shallow embedding of the storefront backend: the Pydantic data model from
`schemas.py`, the HTTP endpoint handlers from `main.py`, and a document-store
model for the adapter (`database.py`, referenced by `main.py` but provided by
the surrounding platform), modelled from the specification's description of
the Document Store Adapter (insert/query over in-order collections of
schema-validated documents keyed by a store-assigned identifier).
-/

namespace LuxuryStore

/-- `Gender = Literal["women", "men", "kids"]` from `schemas.py`. -/
inductive Gender where
  | women | men | kids
deriving DecidableEq, Repr

/-- The string stored in a document for a `Gender` value. -/
def Gender.str : Gender → String
  | .women => "women"
  | .men => "men"
  | .kids => "kids"

/-- `ProductType = Literal["tops", "bottoms", "dress", "shoes"]` from `schemas.py`. -/
inductive ProductType where
  | tops | bottoms | dress | shoes
deriving DecidableEq, Repr

/-- The string stored in a document for a `ProductType` value. -/
def ProductType.str : ProductType → String
  | .tops => "tops"
  | .bottoms => "bottoms"
  | .dress => "dress"
  | .shoes => "shoes"

/-- `Category` model from `schemas.py`. -/
structure Category where
  name : String
  slug : String
  gender : Gender
deriving DecidableEq, Repr

/-- `ProductImage` model from `schemas.py` (`url : HttpUrl` modelled as a string). -/
structure ProductImage where
  url : String
  alt : Option String := none
deriving DecidableEq, Repr

/-- `Variant` model from `schemas.py` (`stock : int ≥ 0` modelled as `Nat`). -/
structure Variant where
  sku : String
  size : Option String := none
  color : Option String := none
  stock : Nat := 0
deriving DecidableEq, Repr

/-- `Product` model from `schemas.py` (`price : float ≥ 0` modelled as `Rat`;
the seed data only uses exact decimal prices). -/
structure Product where
  title : String
  description : Option String := none
  price : Rat
  currency : String := "USD"
  gender : Gender
  type : ProductType
  category : String
  tags : List String := []
  images : List ProductImage := []
  variants : List Variant := []
  featured : Bool := false
deriving DecidableEq, Repr

/-- `CartItem` model from `schemas.py` (`quantity : int ≥ 1`, default 1). -/
structure CartItem where
  product_id : String
  sku : String
  quantity : Nat := 1
deriving DecidableEq, Repr

/-- `Cart` model from `schemas.py`. -/
structure Cart where
  session_id : String
  items : List CartItem := []
deriving DecidableEq, Repr

/-! ## Document store model

Modelled from the spec: the Document Store Adapter (`database.py`, not part of
the two source files) keeps three collections — `category`, `product`,
`cart` — each "a sequence of schema-validated documents" in insertion order,
"keyed by an opaque store-assigned identifier".  `insert(collection, doc)`
appends a document with a fresh identifier; `query(collection, filter)`
returns the documents matching a field-equality/pattern filter in order;
`find_one` returns the first match. -/

/-- A stored `category` document: store-assigned id plus payload. -/
structure CategoryDoc where
  id : Nat
  category : Category
deriving DecidableEq, Repr

/-- A stored `product` document: store-assigned id plus payload. -/
structure ProductDoc where
  id : Nat
  product : Product
deriving DecidableEq, Repr

/-- A stored `cart` document: store-assigned id plus the `Cart` fields. -/
structure CartDoc where
  id : Nat
  session_id : String
  items : List CartItem
deriving DecidableEq, Repr

/-- Modelled from the spec: the whole persistent state — the three collections
in insertion order, plus the next fresh store-assigned identifier. -/
structure Store where
  categories : List CategoryDoc
  products : List ProductDoc
  carts : List CartDoc
  nextId : Nat
deriving DecidableEq, Repr

/-- The empty store (no documents yet). -/
def Store.init : Store := ⟨[], [], [], 0⟩

/-- Modelled from the spec: `insert("category", c)` appends with a fresh id. -/
def insertCategory (st : Store) (c : Category) : Store :=
  { st with categories := st.categories ++ [⟨st.nextId, c⟩], nextId := st.nextId + 1 }

/-- Modelled from the spec: `insert("product", p)` appends with a fresh id. -/
def insertProduct (st : Store) (p : Product) : Store :=
  { st with products := st.products ++ [⟨st.nextId, p⟩], nextId := st.nextId + 1 }

/-- Modelled from the spec: `insert("cart", {session_id, items})` appends with a fresh id. -/
def insertCart (st : Store) (sid : String) (items : List CartItem) : Store :=
  { st with carts := st.carts ++ [⟨st.nextId, sid, items⟩], nextId := st.nextId + 1 }

/-- `db["cart"].find_one({"session_id": sid})`: first cart whose
`session_id` equals `sid`. -/
def findCart (st : Store) (sid : String) : Option CartDoc :=
  st.carts.find? (fun c => c.session_id == sid)

/-- Replace the first element satisfying `p` by its image under `f`
(the store's `update_one` touches only the first matching document). -/
def updateFirst (p : α → Bool) (f : α → α) : List α → List α
  | [] => []
  | x :: xs => if p x then f x :: xs else x :: updateFirst p f xs

/-- `db["cart"].update_one({"_id": cid}, {"$set": {"items": items}})`:
set the `items` field of the first cart document with identifier `cid`. -/
def updateCartItems (st : Store) (cid : Nat) (items : List CartItem) : Store :=
  { st with carts := updateFirst (fun c => c.id == cid) (fun c => { c with items := items }) st.carts }

/-- `db["cart"].find_one({"_id": cid})`: first cart document with identifier `cid`. -/
def findCartById (st : Store) (cid : Nat) : Option CartDoc :=
  st.carts.find? (fun c => c.id == cid)

/-- A well-formed store: store-assigned identifiers of cart documents are
pairwise distinct and below the fresh-id counter.  Every store actually
produced by the adapter satisfies this. -/
def Store.WF (st : Store) : Prop :=
  (st.carts.map CartDoc.id).Nodup ∧ ∀ c ∈ st.carts, c.id < st.nextId

/-- `HTTPException(status_code, detail)` from FastAPI, as raised in `main.py`. -/
structure HTTPError where
  status : Nat
  detail : String
deriving DecidableEq, Repr

/-! ## Helpers (`main.py`, `oid`) -/

/-- A character allowed in a hexadecimal ObjectId string. -/
def isHexChar (c : Char) : Bool :=
  c.isDigit || (('a' ≤ c) && (c ≤ 'f')) || (('A' ≤ c) && (c ≤ 'F'))

/-- Whether `ObjectId(s)` succeeds for a string `s`: BSON requires exactly a
24-character hexadecimal string (`bson.ObjectId.__validate`). -/
def validObjectId (s : String) : Bool :=
  (s.length == 24) && s.toList.all isHexChar

/-- Numeric value of a hex digit (0 for non-hex characters, unused on them). -/
def hexDigitVal (c : Char) : Nat :=
  if c.isDigit then c.toNat - '0'.toNat
  else if ('a' ≤ c) && (c ≤ 'f') then c.toNat - 'a'.toNat + 10
  else if ('A' ≤ c) && (c ≤ 'F') then c.toNat - 'A'.toNat + 10
  else 0

/-- The store identifier denoted by a 24-hex-character ObjectId string
(ObjectIds are modelled as the natural number their hex digits denote). -/
def hexToNat (s : String) : Nat :=
  s.toList.foldl (fun a c => 16 * a + hexDigitVal c) 0

/-- `oid(id_str)` from `main.py`: parse an ObjectId, raising
`HTTPException(400, "Invalid id")` on malformed input. -/
def oid (s : String) : Except HTTPError Nat :=
  if validObjectId s then .ok (hexToNat s)
  else .error ⟨400, "Invalid id"⟩

/-! ## Seed data and `seed` endpoint (`main.py`, `POST /api/seed`) -/

/-- The fixed `categories` list from `seed` in `main.py` (3 entries). -/
def seedCategories : List Category :=
  [ ⟨"Women", "women", .women⟩,
    ⟨"Men", "men", .men⟩,
    ⟨"Kids", "kids", .kids⟩ ]

/-- The fixed `sample_products` list from `seed` in `main.py` (4 entries). -/
def seedProductsList : List Product :=
  [ { title := "Silk Emerald Top"
      description := some "Silk satin blouse with subtle sheen."
      price := 890
      currency := "USD"
      gender := .women
      type := .tops
      category := "women"
      tags := ["seasonal", "emerald"]
      images := [⟨"https://images.unsplash.com/photo-1521572163474-6864f9cf17ab", some "Silk Top"⟩]
      variants := [⟨"W-TOP-EMR-S", some "S", none, 5⟩,
                   ⟨"W-TOP-EMR-M", some "M", none, 7⟩,
                   ⟨"W-TOP-EMR-L", some "L", none, 4⟩]
      featured := true },
    { title := "Tailored Wool Trousers"
      description := some "Slim fit wool trousers with pressed creases."
      price := 760
      currency := "USD"
      gender := .men
      type := .bottoms
      category := "men"
      tags := ["classic"]
      images := [⟨"https://images.unsplash.com/photo-1520975693416-35a1d9d8f5f4", some "Wool Trousers"⟩]
      variants := [⟨"M-BOT-WOOL-30", some "30", none, 6⟩,
                   ⟨"M-BOT-WOOL-32", some "32", none, 8⟩]
      featured := true },
    { title := "Kid\x27s Party Dress"
      description := some "Tulle skirt with satin bodice in amber accents."
      price := 520
      currency := "USD"
      gender := .kids
      type := .dress
      category := "kids"
      tags := ["seasonal", "gold"]
      images := [⟨"https://images.unsplash.com/photo-1520975236143-0f2a8f3f6b9a", some "Kids Dress"⟩]
      variants := [⟨"K-DRS-PT-4", some "4", none, 10⟩,
                   ⟨"K-DRS-PT-6", some "6", none, 7⟩]
      featured := true },
    { title := "Calf Leather Oxfords"
      description := some "Hand-polished leather shoes with amber lining."
      price := 980
      currency := "USD"
      gender := .men
      type := .shoes
      category := "men"
      tags := ["new"]
      images := [⟨"https://images.unsplash.com/photo-1515542706656-8e6ef17a1521", some "Leather Oxfords"⟩]
      variants := [⟨"M-SHO-OXF-42", some "42", none, 3⟩,
                   ⟨"M-SHO-OXF-43", some "43", none, 2⟩]
      featured := false } ]

/-- The response of the `seed` endpoint: `{"status": "ok", "message": "Already seeded"}`
or `{"status": "ok", "seeded": n}`. -/
inductive SeedResponse where
  | alreadySeeded
  | seeded (n : Nat)
deriving DecidableEq, Repr

/-- `seed(req)` from `main.py`: unless `force`, if both the `category` and
`product` collections are non-empty, do nothing and answer "Already seeded";
otherwise clear both collections and insert the 3 fixed categories and the
4 fixed products. -/
def seed (st : Store) (force : Bool) : Store × SeedResponse :=
  if force = false ∧ 0 < st.categories.length ∧ 0 < st.products.length then
    (st, .alreadySeeded)
  else
    let st1 : Store := { st with categories := [], products := [] }
    let st2 := seedCategories.foldl insertCategory st1
    let st3 := seedProductsList.foldl insertProduct st2
    (st3, .seeded seedProductsList.length)

/-! ## Catalog endpoints (`main.py`, `GET /api/products`, `GET /api/products/{id}`) -/

/-- Modelled from the spec: the store's title matching for the filter
`{"$regex": pat, "$options": "i"}` — a "case-insensitive substring match on
`title`".  (The pattern is handed to the external store's regex engine; for
the metacharacter-free patterns the spec discusses this is exactly
case-insensitive substring containment.) -/
def containsCI (title pat : String) : Bool :=
  decide (pat.toLower.toList <:+: title.toLower.toList)

/-- The Mongo filter dictionary built by `list_products`: each key is present
(`some`) or absent (`none`). -/
structure ProductFilter where
  gender : Option String := none
  type : Option String := none
  category : Option String := none
  featured : Option Bool := none
  title : Option String := none
deriving DecidableEq, Repr

/-- Whether a stored product document matches every constraint present in the
filter (field equality; `title` by case-insensitive pattern containment); an
absent key (`none`) constrains nothing. -/
def matchesProductFilter (filt : ProductFilter) (d : ProductDoc) : Bool :=
  (filt.gender.all fun g => d.product.gender.str == g) &&
  (filt.type.all fun t => d.product.type.str == t) &&
  (filt.category.all fun c => d.product.category == c) &&
  (filt.featured.all fun b => d.product.featured == b) &&
  (filt.title.all fun pat => containsCI d.product.title pat)

/-- Modelled from the spec: `get_documents("product", filt)` returns the
matching documents in insertion order. -/
def getDocumentsProduct (st : Store) (filt : ProductFilter) : List ProductDoc :=
  st.products.filter (matchesProductFilter filt)

/-- Python truthiness of an `Optional[str]`: `None` and `""` are falsy. -/
def truthy : Option String → Bool
  | none => false
  | some s => !(s == "")

/-- The filter dictionary built by `list_products` in `main.py`: a string key
is added only if the parameter is truthy (present and non-empty, `if gender:`
etc.), `featured` is added whenever present (`is not None`), and `q` becomes
a case-insensitive title pattern. -/
def buildProductFilter (gender type category : Option String)
    (featured : Option Bool) (q : Option String) : ProductFilter :=
  let filt : ProductFilter := {}
  let filt := if truthy gender then { filt with gender := gender } else filt
  let filt := if truthy type then { filt with type := type } else filt
  let filt := if truthy category then { filt with category := category } else filt
  let filt := match featured with
    | some b => { filt with featured := some b }
    | none => filt
  let filt := if truthy q then { filt with title := q } else filt
  filt

/-- `list_products(gender, type, category, featured, q)` from `main.py`:
build the filter dictionary, then query the `product` collection. -/
def listProducts (st : Store) (gender type category : Option String)
    (featured : Option Bool) (q : Option String) : List ProductDoc :=
  getDocumentsProduct st (buildProductFilter gender type category featured q)

/-- `get_product(product_id)` from `main.py`: parse the id with `oid`
(raising 400 on malformed input, before the store is consulted), look the
product up by `_id`, and raise `HTTPException(404, "Product not found")`
when no document matches. -/
def getProduct (st : Store) (product_id : String) : Except HTTPError ProductDoc :=
  match oid product_id with
  | .error e => .error e
  | .ok pid =>
    match st.products.find? (fun d => d.id == pid) with
    | none => .error ⟨404, "Product not found"⟩
    | some d => .ok d

/-! ## Cart endpoints (`main.py`, `POST /api/cart`, `/api/cart/add`, `/api/cart/remove`) -/

/-- `create_or_get_cart(cart)` from `main.py`: find the cart by
`session_id`; if absent, insert the request body (its `session_id` and
`items`) and re-fetch.  Returns the (possibly unchanged) store and the
fetched document. -/
def createOrGetCart (st : Store) (cart : Cart) : Store × Option CartDoc :=
  match findCart st cart.session_id with
  | some existing => (st, some existing)
  | none =>
    let st1 := insertCart st cart.session_id cart.items
    (st1, findCart st1 cart.session_id)

/-- The spec-level `get_or_create(session_id)`: the `POST /api/cart` endpoint
invoked with a body carrying only `session_id`, so `items` takes its Pydantic
default `[]` (`Field(default_factory=list)`). -/
def getOrCreate (st : Store) (sid : String) : Store × Option CartDoc :=
  createOrGetCart st ⟨sid, []⟩

/-- `UpdateCartRequest` model from `main.py`. -/
structure UpdateCartRequest where
  session_id : String
  item : CartItem
deriving DecidableEq, Repr

/-- The in-place loop of `cart_add`: scan `items` for the first entry with
the same `sku`; if found, add `item.quantity` to its `quantity` and stop;
otherwise append `item` at the end. -/
def addItemToList : List CartItem → CartItem → List CartItem
  | [], item => [item]
  | it :: rest, item =>
    if it.sku == item.sku then { it with quantity := it.quantity + item.quantity } :: rest
    else it :: addItemToList rest item

/-- The tail of `cart_add` once a cart document is in hand: merge-or-append
the item into its `items`, write the whole list back with `update_one`, and
re-fetch the document by `_id`. -/
def cartAddGo (st : Store) (cart : CartDoc) (item : CartItem) : Store × Option CartDoc :=
  let items := addItemToList cart.items item
  let st1 := updateCartItems st cart.id items
  (st1, findCartById st1 cart.id)

/-- `cart_add(req)` from `main.py`: find the cart by `session_id`, creating
an empty one (and re-fetching it) if absent, then merge-or-append the item
and persist.  The inner `none` branch is unreachable: the cart was just
inserted. -/
def cartAdd (st : Store) (req : UpdateCartRequest) : Store × Option CartDoc :=
  match findCart st req.session_id with
  | some cart => cartAddGo st cart req.item
  | none =>
    let st1 := insertCart st req.session_id []
    match findCart st1 req.session_id with
    | some cart => cartAddGo st1 cart req.item
    | none => (st1, none)

/-- `cart_remove(req)` from `main.py`: raise
`HTTPException(404, "Cart not found")` when no cart exists for
`session_id`; otherwise drop every item whose `sku` equals `req.item.sku`,
persist the filtered list, and return the re-fetched document. -/
def cartRemove (st : Store) (req : UpdateCartRequest) :
    Except HTTPError (Store × Option CartDoc) :=
  match findCart st req.session_id with
  | none => .error ⟨404, "Cart not found"⟩
  | some cart =>
    let items := cart.items.filter (fun it => it.sku != req.item.sku)
    let st1 := updateCartItems st cart.id items
    .ok (st1, findCartById st1 cart.id)

/-! ## Search endpoint (`main.py`, `GET /api/search`) -/

/-- `search_products(q)` from `main.py`: an empty query returns `[]`
immediately; otherwise the products whose title matches the
case-insensitive pattern, limited to the first 10. -/
def searchProducts (st : Store) (q : String) : List ProductDoc :=
  if q == "" then []
  else (st.products.filter (fun d => containsCI d.product.title q)).take 10

/-! ## Reachable states of the cart workflow -/

/-- Store states reachable from the empty store by sequential execution of
the three cart operations (get-or-create with an arbitrary request body,
add-item, remove-item). -/
inductive Reachable : Store → Prop where
  | init : Reachable Store.init
  | createOrGet {st : Store} (cart : Cart) :
      Reachable st → Reachable (createOrGetCart st cart).1
  | add {st : Store} (req : UpdateCartRequest) :
      Reachable st → Reachable (cartAdd st req).1
  | removeOk {st st1 : Store} {r : Option CartDoc} (req : UpdateCartRequest) :
      Reachable st → cartRemove st req = .ok (st1, r) → Reachable st1

/-- The §3 invariant: at most one cart document per `session_id` value. -/
def atMostOneCartPerSession (st : Store) : Prop :=
  (st.carts.map CartDoc.session_id).Nodup

/-- The `items` of the cart currently stored for `sid` (`[]` when none is). -/
def priorItems (st : Store) (sid : String) : List CartItem :=
  ((findCart st sid).map CartDoc.items).getD []

/-! ## Concrete states used to exercise the endpoints -/

/-- The reference store: the result of seeding the empty store. -/
def demoStore : Store := (seed Store.init false).1

/-- A store holding a single cart for session `"s1"` with one line item. -/
def oneCartStore : Store := ⟨[], [], [⟨0, "s1", [⟨"p1", "A", 2⟩]⟩], 1⟩

/-- A single catalog product (a men's tee) used to probe the filters. -/
def cexProduct : Product :=
  { title := "Tee", price := 10, gender := .men, type := .tops, category := "men" }

/-- A store whose `product` collection holds exactly `cexProduct`. -/
def cexStore : Store := ⟨[], [⟨0, cexProduct⟩], [], 1⟩

/-! ## Auxiliary lemmas -/

theorem updateFirst_map {α β : Type _} (p : α → Bool) (f : α → α) (g : α → β)
    (hg : ∀ x, g (f x) = g x) (l : List α) :
    (updateFirst p f l).map g = l.map g := by
  induction l with
  | nil => rfl
  | cons x xs ih => by_cases h : p x <;> simp [updateFirst, h, hg, ih]

theorem updateFirst_eq_self {α : Type _} (p : α → Bool) (f : α → α)
    (hf : ∀ x, p x = true → f x = x) (l : List α) : updateFirst p f l = l := by
  induction l with
  | nil => rfl
  | cons x xs ih =>
    by_cases h : p x
    · simp [updateFirst, h, hf x h]
    · simp [updateFirst, h, ih]

theorem find?_append_of_none {α : Type _} (p : α → Bool) (l₁ l₂ : List α)
    (h : l₁.find? p = none) : (l₁ ++ l₂).find? p = l₂.find? p := by
  rw [List.find?_append, h]; rfl

/-- Updating the first cart document with a given id and re-fetching by that
id yields exactly the updated document, provided ids are pairwise distinct. -/
theorem find?_updateFirst_id (cid : Nat) (items : List CartItem) (l : List CartDoc)
    (hN : (l.map CartDoc.id).Nodup) (c : CartDoc) (hmem : c ∈ l) (hcid : c.id = cid) :
    (updateFirst (fun d => d.id == cid) (fun d => { d with items := items }) l).find?
      (fun d => d.id == cid) = some { c with items := items } := by
  induction l with
  | nil => cases hmem
  | cons x xs ih =>
    simp only [List.map_cons, List.nodup_cons] at hN
    by_cases hx : (x.id == cid) = true
    · have hxc : c = x := by
        rcases List.mem_cons.mp hmem with h | h
        · exact h
        · exfalso
          apply hN.1
          have hmm : c.id ∈ xs.map CartDoc.id := List.mem_map_of_mem _ h
          rw [hcid] at hmm
          rw [show x.id = cid from by simpa using hx]
          exact hmm
      subst hxc
      simp [updateFirst, hx, List.find?]
    · have hcx : c ∈ xs := by
        rcases List.mem_cons.mp hmem with h | h
        · exfalso; apply hx; subst h; simpa using hcid
        · exact h
      simp only [updateFirst, hx, if_false, Bool.false_eq_true, ite_false]
      rw [List.find?_cons_of_neg _ (by simpa using hx)]
      exact ih hN.2 hcx

theorem findCartById_updateCartItems (st : Store) (hN : (st.carts.map CartDoc.id).Nodup)
    (c : CartDoc) (hmem : c ∈ st.carts) (items : List CartItem) :
    findCartById (updateCartItems st c.id items) c.id = some { c with items := items } :=
  find?_updateFirst_id c.id items st.carts hN c hmem rfl

theorem findCart_mem {st : Store} {sid : String} {c : CartDoc}
    (h : findCart st sid = some c) : c ∈ st.carts :=
  List.mem_of_find?_eq_some h

theorem findCart_session {st : Store} {sid : String} {c : CartDoc}
    (h : findCart st sid = some c) : c.session_id = sid := by
  simpa using List.find?_some h

theorem findCart_insertCart_self (st : Store) (sid : String) (items : List CartItem)
    (h : findCart st sid = none) :
    findCart (insertCart st sid items) sid = some ⟨st.nextId, sid, items⟩ := by
  unfold findCart insertCart
  unfold findCart at h
  rw [find?_append_of_none _ _ _ h]
  simp [List.find?]

theorem WF_insertCart (st : Store) (hWF : st.WF) (sid : String) (items : List CartItem) :
    (insertCart st sid items).WF := by
  obtain ⟨h1, h2⟩ := hWF
  constructor
  · simp only [insertCart, List.map_append, List.map_cons, List.map_nil, List.nodup_append]
    refine ⟨h1, List.nodup_singleton _, ?_⟩
    intro a ha hb
    simp only [List.mem_singleton] at hb
    subst hb
    obtain ⟨c, hc, hca⟩ := List.mem_map.mp ha
    exact absurd hca (Nat.ne_of_lt (h2 c hc))
  · intro c hc
    simp only [insertCart, List.mem_append, List.mem_singleton] at hc
    rcases hc with hc | hc
    · exact Nat.lt_succ_of_lt (h2 c hc)
    · subst hc; exact Nat.lt_succ_self _

theorem addItemToList_of_no_match (items : List CartItem) (item : CartItem)
    (h : ∀ it ∈ items, it.sku ≠ item.sku) : addItemToList items item = items ++ [item] := by
  induction items with
  | nil => rfl
  | cons it rest ih =>
    have hne : (it.sku == item.sku) = false := by
      simpa using h it (List.mem_cons_self it rest)
    simp [addItemToList, hne, ih (fun x hx => h x (List.mem_cons_of_mem _ hx))]

theorem addItemToList_of_first_match (items : List CartItem) (item : CartItem)
    (k : Nat) (hk : k < items.length)
    (hsku : (items.get ⟨k, hk⟩).sku = item.sku)
    (hmin : ∀ (j : Nat) (hj : j < items.length), j < k → (items.get ⟨j, hj⟩).sku ≠ item.sku) :
    addItemToList items item =
      items.set k
        { items.get ⟨k, hk⟩ with quantity := (items.get ⟨k, hk⟩).quantity + item.quantity } := by
  induction items generalizing k with
  | nil => exact absurd hk (Nat.not_lt_zero k)
  | cons it rest ih =>
    cases k with
    | zero =>
      have hb : (it.sku == item.sku) = true := by simpa using hsku
      simp [addItemToList, hb]
    | succ k =>
      have hne : (it.sku == item.sku) = false := by
        have := hmin 0 (Nat.zero_lt_succ _) (Nat.zero_lt_succ _)
        simpa using this
      have hk2 : k < rest.length := Nat.lt_of_succ_lt_succ hk
      have hmin2 : ∀ (j : Nat) (hj : j < rest.length), j < k →
          (rest.get ⟨j, hj⟩).sku ≠ item.sku := by
        intro j hj hjk
        have := hmin (j + 1) (Nat.succ_lt_succ hj) (Nat.succ_lt_succ hjk)
        simpa using this
      have := ih k hk2 (by simpa using hsku) hmin2
      simp [addItemToList, hne, this]

/-- Writing a cart document's own `items` back unchanged leaves the
collection unchanged, provided ids are pairwise distinct. -/
theorem updateFirst_id_eq_self (l : List CartDoc) (hN : (l.map CartDoc.id).Nodup)
    (c : CartDoc) (hmem : c ∈ l) :
    updateFirst (fun d => d.id == c.id) (fun d => { d with items := c.items }) l = l := by
  induction l with
  | nil => rfl
  | cons x xs ih =>
    simp only [List.map_cons, List.nodup_cons] at hN
    by_cases hx : (x.id == c.id) = true
    · have hxc : c = x := by
        rcases List.mem_cons.mp hmem with h | h
        · exact h
        · exfalso
          apply hN.1
          have hmm : c.id ∈ xs.map CartDoc.id := List.mem_map_of_mem _ h
          rw [show x.id = c.id from by simpa using hx]
          exact hmm
      subst hxc
      simp [updateFirst, hx]
    · have hcx : c ∈ xs := by
        rcases List.mem_cons.mp hmem with h | h
        · exfalso; apply hx; subst h; simp
        · exact h
      simp [updateFirst, hx, ih hN.2 hcx]

theorem cartAddGo_snd (st : Store) (hN : (st.carts.map CartDoc.id).Nodup)
    (cart : CartDoc) (hmem : cart ∈ st.carts) (item : CartItem) :
    (cartAddGo st cart item).2 = some { cart with items := addItemToList cart.items item } :=
  findCartById_updateCartItems st hN cart hmem _

/-! ## Claim theorems -/

/-- **C1.** For every session and every valid `CartItem` (non-empty `sku`,
`quantity ≥ 1`), `cart_add` behaves as merge-or-append on the cart's items
list (`[]` for a cart that did not yet exist): the endpoint answers with a
cart document for the session whose items are, when no prior line has the
added `sku`, the prior lines followed by the new item (arrival order
preserved); and when position `k` holds the first line with that `sku`, the
prior list with only line `k`'s quantity increased by the added quantity —
no new line added. -/
theorem cartAdd_merge_or_append (st : Store) (req : UpdateCartRequest)
    (hWF : st.WF) (hsku : req.item.sku ≠ "") (hqty : 1 ≤ req.item.quantity) :
    ∃ c : CartDoc,
      (cartAdd st req).2 = some c ∧
      c.session_id = req.session_id ∧
      ((∀ it ∈ priorItems st req.session_id, it.sku ≠ req.item.sku) →
        c.items = priorItems st req.session_id ++ [req.item]) ∧
      (∀ (k : Nat) (hk : k < (priorItems st req.session_id).length),
        ((priorItems st req.session_id).get ⟨k, hk⟩).sku = req.item.sku →
        (∀ (j : Nat) (hj : j < (priorItems st req.session_id).length), j < k →
          ((priorItems st req.session_id).get ⟨j, hj⟩).sku ≠ req.item.sku) →
        c.items = (priorItems st req.session_id).set k
          { (priorItems st req.session_id).get ⟨k, hk⟩ with
            quantity :=
              ((priorItems st req.session_id).get ⟨k, hk⟩).quantity + req.item.quantity }) := by
  cases hf : findCart st req.session_id with
  | some cart =>
    have hprior : priorItems st req.session_id = cart.items := by simp [priorItems, hf]
    refine ⟨{ cart with items := addItemToList (priorItems st req.session_id) req.item },
      ?_, ?_, ?_, ?_⟩
    · unfold cartAdd
      rw [hf, hprior]
      exact cartAddGo_snd st hWF.1 cart (findCart_mem hf) req.item
    · show cart.session_id = req.session_id
      exact findCart_session hf
    · exact fun h => addItemToList_of_no_match _ _ h
    · exact fun k hk hs hm => addItemToList_of_first_match _ _ k hk hs hm
  | none =>
    have hprior : priorItems st req.session_id = [] := by simp [priorItems, hf]
    have h1 := findCart_insertCart_self st req.session_id [] hf
    refine ⟨⟨st.nextId, req.session_id,
        addItemToList (priorItems st req.session_id) req.item⟩,
      ?_, rfl, ?_, ?_⟩
    · unfold cartAdd
      rw [hf]
      simp only [h1]
      rw [hprior]
      have hWF1 := WF_insertCart st hWF req.session_id []
      have hmem : (⟨st.nextId, req.session_id, []⟩ : CartDoc) ∈
          (insertCart st req.session_id []).carts := by
        simp [insertCart]
      exact cartAddGo_snd (insertCart st req.session_id []) hWF1.1
        ⟨st.nextId, req.session_id, []⟩ hmem req.item
    · exact fun h => addItemToList_of_no_match _ _ h
    · exact fun k hk hs hm => addItemToList_of_first_match _ _ k hk hs hm

/-- **C2.** `cart_remove` fails (with the 404 "Cart not found" error) exactly
when no cart exists for the session; when a cart exists, it answers with the
cart whose items are the prior items with every entry of the given `sku`
excluded, and when the `sku` was not present the store and the returned cart
are completely unchanged (no error). -/
theorem cartRemove_spec (st : Store) (req : UpdateCartRequest) (hWF : st.WF) :
    ((∃ e, cartRemove st req = .error e) ↔ findCart st req.session_id = none) ∧
    (∀ e, cartRemove st req = .error e → e = ⟨404, "Cart not found"⟩) ∧
    (∀ cart, findCart st req.session_id = some cart →
      ∃ (st1 : Store) (c : CartDoc),
        cartRemove st req = .ok (st1, some c) ∧
        c.session_id = cart.session_id ∧
        c.items = cart.items.filter (fun it => it.sku ≠ req.item.sku) ∧
        ((∀ it ∈ cart.items, it.sku ≠ req.item.sku) → st1 = st ∧ c = cart)) := by
  cases hf : findCart st req.session_id with
  | none =>
    have heq : cartRemove st req = .error ⟨404, "Cart not found"⟩ := by
      unfold cartRemove; rw [hf]
    refine ⟨⟨fun _ => rfl, fun _ => ⟨_, heq⟩⟩, ?_, ?_⟩
    · intro e he
      rw [heq] at he
      exact (Except.error.inj he).symm
    · intro cart hc
      cases hc
  | some cart =>
    have heq : cartRemove st req =
        .ok (updateCartItems st cart.id (cart.items.filter (fun it => it.sku != req.item.sku)),
          findCartById
            (updateCartItems st cart.id (cart.items.filter (fun it => it.sku != req.item.sku)))
            cart.id) := by
      unfold cartRemove; rw [hf]
    have hrefetch := findCartById_updateCartItems st hWF.1 cart (findCart_mem hf)
      (cart.items.filter (fun it => it.sku != req.item.sku))
    refine ⟨⟨?_, ?_⟩, ?_, ?_⟩
    · rintro ⟨e, he⟩
      rw [heq] at he
      cases he
    · intro h
      cases h
    · intro e he
      rw [heq] at he
      cases he
    · intro cart' hc'
      cases hc'
      refine ⟨updateCartItems st cart.id (cart.items.filter (fun it => it.sku != req.item.sku)),
        { cart with items := cart.items.filter (fun it => it.sku != req.item.sku) },
        ?_, rfl, ?_, ?_⟩
      · rw [heq, hrefetch]
      · show cart.items.filter (fun it => it.sku != req.item.sku) = _
        exact List.filter_congr fun a _ => by by_cases h : a.sku = req.item.sku <;> simp [h]
      · intro hno
        have hid : cart.items.filter (fun it => it.sku != req.item.sku) = cart.items :=
          List.filter_eq_self.mpr fun a ha => by simpa using hno a ha
        constructor
        · show updateCartItems st cart.id (cart.items.filter (fun it => it.sku != req.item.sku)) = st
          rw [hid]
          unfold updateCartItems
          rw [updateFirst_id_eq_self st.carts hWF.1 cart (findCart_mem hf)]
        · show ({ cart with items := cart.items.filter (fun it => it.sku != req.item.sku) } : CartDoc) = cart
          rw [hid]

/-- **C3.** For a non-empty, previously unseen `session_id`, the get-or-create
operation creates a cart with empty `items`, re-fetches it and returns it:
the returned cart document carries the given session and an empty items
list, and the store gains exactly that cart. -/
theorem getOrCreate_unseen (st : Store) (sid : String) (hsid : sid ≠ "")
    (hnone : findCart st sid = none) :
    ∃ c : CartDoc, getOrCreate st sid = (insertCart st sid [], some c) ∧
      c.session_id = sid ∧ c.items = [] := by
  refine ⟨⟨st.nextId, sid, []⟩, ?_, rfl, rfl⟩
  simp only [getOrCreate, createOrGetCart]
  rw [hnone, findCart_insertCart_self st sid [] hnone]

theorem sids_updateCartItems (st : Store) (cid : Nat) (items : List CartItem) :
    (updateCartItems st cid items).carts.map CartDoc.session_id =
      st.carts.map CartDoc.session_id := by
  show (updateFirst (fun c => c.id == cid) (fun c => { c with items := items })
      st.carts).map CartDoc.session_id = st.carts.map CartDoc.session_id
  exact updateFirst_map (fun c => c.id == cid) (fun c => { c with items := items })
    CartDoc.session_id (fun _ => rfl) st.carts

theorem atMostOne_updateCartItems (st : Store) (cid : Nat) (items : List CartItem)
    (hinv : atMostOneCartPerSession st) :
    atMostOneCartPerSession (updateCartItems st cid items) := by
  unfold atMostOneCartPerSession at hinv ⊢
  rw [sids_updateCartItems]
  exact hinv

theorem atMostOne_cartAddGo (st : Store) (c : CartDoc) (item : CartItem)
    (hinv : atMostOneCartPerSession st) :
    atMostOneCartPerSession (cartAddGo st c item).1 :=
  atMostOne_updateCartItems st c.id (addItemToList c.items item) hinv

theorem atMostOne_insertCart (st : Store) (sid : String) (items : List CartItem)
    (h : findCart st sid = none) (hinv : atMostOneCartPerSession st) :
    atMostOneCartPerSession (insertCart st sid items) := by
  have hnot : ∀ c ∈ st.carts, c.session_id ≠ sid := by
    intro c hc
    have := List.find?_eq_none.mp h c hc
    simpa using this
  unfold atMostOneCartPerSession at hinv ⊢
  unfold insertCart
  simp only [List.map_append, List.map_cons, List.map_nil]
  rw [List.nodup_append]
  refine ⟨hinv, List.nodup_singleton _, ?_⟩
  intro a ha hb
  simp only [List.mem_singleton] at hb
  subst hb
  obtain ⟨c, hc, hca⟩ := List.mem_map.mp ha
  exact hnot c hc hca

/-- **C4.** Every store state reachable from the empty store by sequential
execution of the cart operations (get-or-create, add-item, remove-item) has
at most one cart document per `session_id` value: each operation preserves
the invariant. -/
theorem reachable_at_most_one_cart (st : Store) (h : Reachable st) :
    atMostOneCartPerSession st := by
  induction h with
  | init => simp [atMostOneCartPerSession, Store.init]
  | @createOrGet st0 cart hr ih =>
    unfold createOrGetCart
    cases hf : findCart st0 cart.session_id with
    | some c => exact ih
    | none => exact atMostOne_insertCart st0 cart.session_id cart.items hf ih
  | @add st0 req hr ih =>
    unfold cartAdd
    cases hf : findCart st0 req.session_id with
    | some c => exact atMostOne_cartAddGo st0 c req.item ih
    | none =>
      have h1 := findCart_insertCart_self st0 req.session_id [] hf
      have hinv1 := atMostOne_insertCart st0 req.session_id [] hf ih
      simp only [h1]
      exact atMostOne_cartAddGo _ _ req.item hinv1
  | @removeOk st0 st1 r req hr heq ih =>
    unfold cartRemove at heq
    cases hf : findCart st0 req.session_id with
    | none => rw [hf] at heq; cases heq
    | some cart =>
      rw [hf] at heq
      have hpair := Except.ok.inj heq
      rw [Prod.mk.injEq] at hpair
      rw [← hpair.1]
      exact atMostOne_updateCartItems _ _ _ ih

/-- **C10.** When a cart already exists for the request body's `session_id`,
`POST /api/cart` returns the stored cart document and the whole store is left
unchanged: the request body's `items` are neither merged into nor replace the
stored items, and no collection is modified. -/
theorem createOrGetCart_existing (st : Store) (body : Cart) (c : CartDoc)
    (hfound : findCart st body.session_id = some c) :
    createOrGetCart st body = (st, some c) := by
  unfold createOrGetCart
  rw [hfound]

/-- **C5.** Search: the empty query yields the empty sequence (not the whole
catalog); a non-empty query yields an initial segment of the products whose
title matches it case-insensitively, of length `min 10 ⟨number of matches⟩` —
so all matches whenever at most 10 titles match, and exactly 10 otherwise. -/
theorem searchProducts_spec (st : Store) (q : String) :
    (q = "" → searchProducts st q = []) ∧
    (q ≠ "" →
      searchProducts st q <+: st.products.filter (fun d => containsCI d.product.title q) ∧
      (searchProducts st q).length =
        min 10 (st.products.filter (fun d => containsCI d.product.title q)).length ∧
      ((st.products.filter (fun d => containsCI d.product.title q)).length ≤ 10 →
        searchProducts st q = st.products.filter (fun d => containsCI d.product.title q))) := by
  constructor
  · intro h; subst h; rfl
  · intro h
    have hq : ¬((q == "") = true) := by simpa using h
    unfold searchProducts
    rw [if_neg hq]
    exact ⟨List.take_prefix _ _, List.length_take _ _,
      fun hlen => List.take_of_length_le hlen⟩

theorem seed_noop (st : Store) (h : 0 < st.categories.length ∧ 0 < st.products.length) :
    seed st false = (st, SeedResponse.alreadySeeded) := by
  unfold seed
  rw [if_pos ⟨rfl, h.1, h.2⟩]

/-- **C7.** Seeding with `force = false` is idempotent: when both collections
are already non-empty it is a pure no-op answering "Already seeded", and a
second `force = false` call always leaves the category/product counts of the
first call unchanged. -/
theorem seed_idempotent (st : Store) :
    ((0 < st.categories.length ∧ 0 < st.products.length) →
      seed st false = (st, SeedResponse.alreadySeeded)) ∧
    ((seed (seed st false).1 false).1.categories.length =
        (seed st false).1.categories.length ∧
      (seed (seed st false).1 false).1.products.length =
        (seed st false).1.products.length) := by
  refine ⟨seed_noop st, ?_⟩
  by_cases h : 0 < st.categories.length ∧ 0 < st.products.length
  · have h1 : (seed st false).1 = st := by rw [seed_noop st h]
    rw [h1, seed_noop st h]
    exact ⟨rfl, rfl⟩
  · have h1 : seed st false =
        (seedProductsList.foldl insertProduct
          (seedCategories.foldl insertCategory { st with categories := [], products := [] }),
         SeedResponse.seeded seedProductsList.length) := by
      unfold seed
      rw [if_neg fun hc => h ⟨hc.2.1, hc.2.2⟩]
    have hc3 : (seed st false).1.categories.length = 3 := by rw [h1]; rfl
    have hp4 : (seed st false).1.products.length = 4 := by rw [h1]; rfl
    have h2 : seed (seed st false).1 false = ((seed st false).1, SeedResponse.alreadySeeded) :=
      seed_noop _ ⟨by rw [hc3]; exact Nat.zero_lt_succ _, by rw [hp4]; exact Nat.zero_lt_succ _⟩
    rw [h2]
    exact ⟨rfl, rfl⟩

/-- **C8.** Seeding with `force = true` from any prior state leaves the
`category` collection holding exactly the 3 fixed reference categories and
the `product` collection exactly the 4 fixed reference products, in order;
every pre-existing document of those collections is discarded. -/
theorem seed_force_resets (st : Store) :
    (seed st true).1.categories.map CategoryDoc.category = seedCategories ∧
    (seed st true).1.products.map ProductDoc.product = seedProductsList := by
  unfold seed
  rw [if_neg fun hc => Bool.noConfusion hc.1]
  exact ⟨rfl, rfl⟩

/-- **C9.** `get_product` rejects a malformed identifier with the 400
"Invalid id" client error uniformly in the store state (so before any store
access, and never as a 404 or a server error), and answers 404 "Product not
found" for a well-formed identifier that no product document carries. -/
theorem getProduct_spec (st : Store) (pid : String) :
    (validObjectId pid = false →
      getProduct st pid = .error ⟨400, "Invalid id"⟩ ∧
      ∀ st2 : Store, getProduct st2 pid = .error ⟨400, "Invalid id"⟩) ∧
    (validObjectId pid = true →
      st.products.find? (fun d => d.id == hexToNat pid) = none →
      getProduct st pid = .error ⟨404, "Product not found"⟩) := by
  constructor
  · intro h
    have hoid : oid pid = .error ⟨400, "Invalid id"⟩ := by
      unfold oid
      rw [if_neg (by simp [h])]
    exact ⟨by unfold getProduct; rw [hoid], fun st2 => by unfold getProduct; rw [hoid]⟩
  · intro hv hn
    have hoid : oid pid = .ok (hexToNat pid) := by
      unfold oid
      rw [if_pos hv]
    unfold getProduct
    rw [hoid]
    show (match st.products.find? (fun d => d.id == hexToNat pid) with
      | none => (Except.error ⟨404, "Product not found"⟩ : Except HTTPError ProductDoc)
      | some d => Except.ok d) = Except.error ⟨404, "Product not found"⟩
    rw [hn]

theorem all_if_truthy_eq (o : Option String) (v : String) :
    (((if truthy o then o else none).all fun s => v == s) = true) ↔
      (∀ s, o = some s → s ≠ "" → v = s) := by
  rcases o with _ | s
  · simp [truthy]
  · by_cases hs : s = ""
    · subst hs; simp [truthy]
    · simp [truthy, hs]

theorem all_if_truthy_contains (o : Option String) (title : String) :
    (((if truthy o then o else none).all fun pat => containsCI title pat) = true) ↔
      (∀ s, o = some s → s ≠ "" → containsCI title s = true) := by
  rcases o with _ | s
  · simp [truthy]
  · by_cases hs : s = ""
    · subst hs; simp [truthy]
    · simp [truthy, hs]

theorem all_featured (f : Option Bool) (v : Bool) :
    ((f.all fun b => v == b) = true) ↔ (∀ b, f = some b → v = b) := by
  rcases f with _ | b <;> simp

theorem buildProductFilter_gender (g t c : Option String) (f : Option Bool)
    (q : Option String) :
    (buildProductFilter g t c f q).gender = if truthy g then g else none := by
  unfold buildProductFilter
  rcases f with _ | b <;> split_ifs <;> rfl

theorem buildProductFilter_type (g t c : Option String) (f : Option Bool)
    (q : Option String) :
    (buildProductFilter g t c f q).type = if truthy t then t else none := by
  unfold buildProductFilter
  rcases f with _ | b <;> split_ifs <;> rfl

theorem buildProductFilter_category (g t c : Option String) (f : Option Bool)
    (q : Option String) :
    (buildProductFilter g t c f q).category = if truthy c then c else none := by
  unfold buildProductFilter
  rcases f with _ | b <;> split_ifs <;> rfl

theorem buildProductFilter_featured (g t c : Option String) (f : Option Bool)
    (q : Option String) :
    (buildProductFilter g t c f q).featured = f := by
  unfold buildProductFilter
  rcases f with _ | b <;> split_ifs <;> rfl

theorem buildProductFilter_title (g t c : Option String) (f : Option Bool)
    (q : Option String) :
    (buildProductFilter g t c f q).title = if truthy q then q else none := by
  unfold buildProductFilter
  rcases f with _ | b <;> split_ifs <;> rfl

theorem matchesProductFilter_build (g t c : Option String) (f : Option Bool)
    (q : Option String) (d : ProductDoc) :
    matchesProductFilter (buildProductFilter g t c f q) d = true ↔
      ((∀ s, g = some s → s ≠ "" → d.product.gender.str = s) ∧
       (∀ s, t = some s → s ≠ "" → d.product.type.str = s) ∧
       (∀ s, c = some s → s ≠ "" → d.product.category = s) ∧
       (∀ b, f = some b → d.product.featured = b) ∧
       (∀ s, q = some s → s ≠ "" → containsCI d.product.title s = true)) := by
  unfold matchesProductFilter
  rw [buildProductFilter_gender, buildProductFilter_type, buildProductFilter_category,
    buildProductFilter_featured, buildProductFilter_title]
  simp only [Bool.and_eq_true]
  rw [all_if_truthy_eq, all_if_truthy_eq, all_if_truthy_eq, all_featured,
    all_if_truthy_contains]
  tauto

/-- **C6 counterexample.** `list_products` called with `gender` supplied as
the empty string returns the men's product, although the claim's equality
constraint `gender = ""` excludes it: a supplied-but-empty filter imposes no
constraint. -/
theorem listProducts_empty_string_filter :
    (⟨0, cexProduct⟩ : ProductDoc) ∈ listProducts cexStore (some "") none none none none ∧
      cexProduct.gender.str ≠ "" := by decide

/-- **C6 (amended).** `list_products` returns exactly the products satisfying
the logical AND of the supplied constraints, where a string filter
(gender/type/category and the title substring `q`) constrains only when it is
supplied non-empty (a missing filter, or one supplied as the empty string,
imposes no constraint), and `featured` constrains whenever supplied (also
when `false`). -/
theorem listProducts_filters (st : Store) (g t c : Option String) (f : Option Bool)
    (q : Option String) (d : ProductDoc) :
    d ∈ listProducts st g t c f q ↔
      (d ∈ st.products ∧
       (∀ s, g = some s → s ≠ "" → d.product.gender.str = s) ∧
       (∀ s, t = some s → s ≠ "" → d.product.type.str = s) ∧
       (∀ s, c = some s → s ≠ "" → d.product.category = s) ∧
       (∀ b, f = some b → d.product.featured = b) ∧
       (∀ s, q = some s → s ≠ "" → containsCI d.product.title s = true)) := by
  unfold listProducts getDocumentsProduct
  rw [List.mem_filter]
  exact and_congr_right fun _ => matchesProductFilter_build g t c f q d

/-! ## Concrete instantiations of the hypothesised theorems -/

/-- **C1 witness**: merging `sku = "A", quantity = 3` into the one-cart
store. -/
theorem cartAdd_merge_or_append_witness :
    Store.WF oneCartStore ∧ ("A" : String) ≠ "" ∧ 1 ≤ 3 ∧
    ∃ c : CartDoc,
      (cartAdd oneCartStore ⟨"s1", ⟨"p1", "A", 3⟩⟩).2 = some c ∧
      c.session_id = "s1" ∧
      ((∀ it ∈ priorItems oneCartStore "s1", it.sku ≠ "A") →
        c.items = priorItems oneCartStore "s1" ++ [⟨"p1", "A", 3⟩]) ∧
      (∀ (k : Nat) (hk : k < (priorItems oneCartStore "s1").length),
        ((priorItems oneCartStore "s1").get ⟨k, hk⟩).sku = "A" →
        (∀ (j : Nat) (hj : j < (priorItems oneCartStore "s1").length), j < k →
          ((priorItems oneCartStore "s1").get ⟨j, hj⟩).sku ≠ "A") →
        c.items = (priorItems oneCartStore "s1").set k
          { (priorItems oneCartStore "s1").get ⟨k, hk⟩ with
            quantity := ((priorItems oneCartStore "s1").get ⟨k, hk⟩).quantity + 3 }) :=
  ⟨⟨by decide, by decide⟩, by decide, by decide,
    cartAdd_merge_or_append oneCartStore ⟨"s1", ⟨"p1", "A", 3⟩⟩
      ⟨by decide, by decide⟩ (by decide) (by decide)⟩

/-- **C2 witness**: removing from the one-cart store. -/
theorem cartRemove_spec_witness :
    Store.WF oneCartStore ∧
    (((∃ e, cartRemove oneCartStore ⟨"s1", ⟨"x", "A", 1⟩⟩ = .error e) ↔
        findCart oneCartStore "s1" = none) ∧
      (∀ e, cartRemove oneCartStore ⟨"s1", ⟨"x", "A", 1⟩⟩ = .error e →
        e = ⟨404, "Cart not found"⟩) ∧
      (∀ cart, findCart oneCartStore "s1" = some cart →
        ∃ (st1 : Store) (c : CartDoc),
          cartRemove oneCartStore ⟨"s1", ⟨"x", "A", 1⟩⟩ = .ok (st1, some c) ∧
          c.session_id = cart.session_id ∧
          c.items = cart.items.filter (fun it => it.sku ≠ "A") ∧
          ((∀ it ∈ cart.items, it.sku ≠ "A") → st1 = oneCartStore ∧ c = cart))) :=
  ⟨⟨by decide, by decide⟩,
    cartRemove_spec oneCartStore ⟨"s1", ⟨"x", "A", 1⟩⟩ ⟨by decide, by decide⟩⟩

/-- **C3 witness**: get-or-create for a session unseen by the empty store. -/
theorem getOrCreate_unseen_witness :
    ("sNew" : String) ≠ "" ∧ findCart Store.init "sNew" = none ∧
    ∃ c : CartDoc,
      getOrCreate Store.init "sNew" = (insertCart Store.init "sNew" [], some c) ∧
      c.session_id = "sNew" ∧ c.items = [] :=
  ⟨by decide, by decide, getOrCreate_unseen Store.init "sNew" (by decide) (by decide)⟩

/-- **C4 witness**: the invariant at a concrete reachable state. -/
theorem reachable_at_most_one_cart_witness :
    Reachable (createOrGetCart Store.init ⟨"s1", []⟩).1 ∧
    atMostOneCartPerSession (createOrGetCart Store.init ⟨"s1", []⟩).1 :=
  ⟨Reachable.createOrGet ⟨"s1", []⟩ Reachable.init,
    reachable_at_most_one_cart _ (Reachable.createOrGet ⟨"s1", []⟩ Reachable.init)⟩

/-- **C5 witness**: searching the seeded store for `"e"`. -/
theorem searchProducts_spec_witness :
    ("e" : String) ≠ "" ∧
    (searchProducts demoStore "e" <+:
        demoStore.products.filter (fun d => containsCI d.product.title "e") ∧
      (searchProducts demoStore "e").length =
        min 10 (demoStore.products.filter (fun d => containsCI d.product.title "e")).length ∧
      ((demoStore.products.filter (fun d => containsCI d.product.title "e")).length ≤ 10 →
        searchProducts demoStore "e" =
          demoStore.products.filter (fun d => containsCI d.product.title "e"))) :=
  ⟨by decide, (searchProducts_spec demoStore "e").2 (by decide)⟩

/-- **C7 witness**: re-seeding the already-seeded store. -/
theorem seed_idempotent_witness :
    (0 < demoStore.categories.length ∧ 0 < demoStore.products.length) ∧
    seed demoStore false = (demoStore, SeedResponse.alreadySeeded) ∧
    ((seed (seed demoStore false).1 false).1.categories.length =
        (seed demoStore false).1.categories.length ∧
      (seed (seed demoStore false).1 false).1.products.length =
        (seed demoStore false).1.products.length) :=
  ⟨⟨by decide, by decide⟩,
    (seed_idempotent demoStore).1 ⟨by decide, by decide⟩,
    (seed_idempotent demoStore).2⟩

/-- **C9 witness**: a malformed id on any store, and a well-formed but absent
id on the empty store. -/
theorem getProduct_spec_witness :
    validObjectId "not-a-valid-id" = false ∧
    (getProduct Store.init "not-a-valid-id" = .error ⟨400, "Invalid id"⟩ ∧
      ∀ st2 : Store, getProduct st2 "not-a-valid-id" = .error ⟨400, "Invalid id"⟩) ∧
    validObjectId "0123456789abcdef01234567" = true ∧
    Store.init.products.find? (fun d => d.id == hexToNat "0123456789abcdef01234567") = none ∧
    getProduct Store.init "0123456789abcdef01234567" = .error ⟨404, "Product not found"⟩ :=
  ⟨by decide, (getProduct_spec Store.init "not-a-valid-id").1 (by decide),
    by decide, by decide,
    (getProduct_spec Store.init "0123456789abcdef01234567").2 (by decide) (by decide)⟩

/-- **C10 witness**: get-or-create on an existing session ignores the body's
items and changes nothing. -/
theorem createOrGetCart_existing_witness :
    findCart oneCartStore "s1" = some ⟨0, "s1", [⟨"p1", "A", 2⟩]⟩ ∧
    createOrGetCart oneCartStore ⟨"s1", [⟨"zzz", "Z", 9⟩]⟩ =
      (oneCartStore, some ⟨0, "s1", [⟨"p1", "A", 2⟩]⟩) :=
  ⟨by decide,
    createOrGetCart_existing oneCartStore ⟨"s1", [⟨"zzz", "Z", 9⟩]⟩
      ⟨0, "s1", [⟨"p1", "A", 2⟩]⟩ (by decide)⟩

end LuxuryStore
